import Mathlib

/-!
Verification of the devproxy HTTP parser and connection/forwarding engine
(`src/devproxy/parser.py`, `src/devproxy/server.py`) against its
specification.  Byte strings are modelled as `List Char`, one `Char` per
byte (all protocol-relevant content is ASCII; `bytes.decode('utf-8')` is
modelled as the identity).  Each `asyncio.wait_for` wrapped read is driven
by a boolean "this read timed out" flag taken from an explicit trace, and
the byte stream supplied by the client before it closes is a single
`List Char`.
-/

abbrev Bytes := List Char

instance {ε α : Type} [DecidableEq ε] [DecidableEq α] : DecidableEq (Except ε α)
  | .error e, .error f =>
    if h : e = f then .isTrue (by rw [h]) else .isFalse (fun hc => h (by cases hc; rfl))
  | .error _, .ok _ => .isFalse (fun hc => Except.noConfusion hc)
  | .ok _, .error _ => .isFalse (fun hc => Except.noConfusion hc)
  | .ok a, .ok b =>
    if h : a = b then .isTrue (by rw [h]) else .isFalse (fun hc => h (by cases hc; rfl))

/-- Python exception classes distinguished by the code's `except` clauses. -/
inductive PyExc where
  | valueError (msg : Bytes)
  | timeoutError
  | otherExc (msg : Bytes)
deriving DecidableEq, Repr

/-- HTTP request value produced by the parser (`HTTPRequest` dataclass).
Headers are an insertion-ordered association list, the model of a Python
`dict` (keys unique, assignment overwrites in place). -/
structure HTTPRequest where
  method : Bytes
  path : Bytes
  version : Bytes
  headers : List (Bytes × Bytes)
  body : Bytes
deriving DecidableEq, Repr

-- ==================== SAFETY LIMITS (HTTPLimits) ====================

def MAX_REQUEST_LINE : Nat := 4096
def MAX_HEADER_SIZE : Nat := 8192
def MAX_HEADERS : Nat := 100
def MAX_TOTAL_HEADERS : Nat := 65536
def MAX_BODY_SIZE : Nat := 10000000

-- ==================== STREAM PRIMITIVES ====================

/-- `StreamReader.readline`: bytes up to and including the first `\n`;
at end of stream without a terminator, the remaining bytes; on a closed
stream, the empty string.  Returns (line, rest of stream). -/
def readLineB : Bytes → Bytes × Bytes
  | [] => ([], [])
  | c :: cs =>
    if c = '\n' then ([c], cs)
    else (c :: (readLineB cs).1, (readLineB cs).2)

/-- `StreamReader.readexactly n`: exactly `n` bytes, or `none` when the
stream closes first (`IncompleteReadError`). -/
def readExactly (n : Nat) (s : Bytes) : Option (Bytes × Bytes) :=
  if n ≤ s.length then some (s.take n, s.drop n) else none

/-- Head of the timeout trace; a missing entry means the read completed. -/
def headTO : List Bool → Bool
  | [] => false
  | t :: _ => t

def tailTO : List Bool → List Bool
  | [] => []
  | _ :: ts => ts

-- ==================== PYTHON STRING HELPERS ====================

/-- Characters removed by Python `str.strip()` (ASCII range). -/
def isPySpace (c : Char) : Bool :=
  c = ' ' || c = '\t' || c = '\n' || c = '\r' || c.toNat = 11 || c.toNat = 12

/-- Python `str.strip()`. -/
def pyStrip (s : Bytes) : Bytes :=
  ((s.dropWhile isPySpace).reverse.dropWhile isPySpace).reverse

/-- Python `str.lstrip("/")`: drop all leading slashes. -/
def pyLstripSlash (s : Bytes) : Bytes := s.dropWhile (· = '/')

/-- Split at the first occurrence of a single character, the separator
excluded from both parts. -/
def splitAtFirst (sep : Char) : Bytes → Option (Bytes × Bytes)
  | [] => none
  | c :: cs =>
    if c = sep then some ([], cs)
    else
      match splitAtFirst sep cs with
      | none => none
      | some (a, b) => some (c :: a, b)

/-- Python `s.split(" ", 2)` followed by a three-way unpack: succeeds
exactly when the string contains at least two spaces; the third token is
everything after the second space. -/
def pySplitSpace2 (s : Bytes) : Option (Bytes × Bytes × Bytes) :=
  match splitAtFirst ' ' s with
  | none => none
  | some (a, r) =>
    match splitAtFirst ' ' r with
    | none => none
    | some (b, c) => some (a, b, c)

/-- Whether `pat` is a prefix of `l`. -/
def isPre : Bytes → Bytes → Bool
  | [], _ => true
  | _ :: _, [] => false
  | p :: ps, c :: cs => p = c && isPre ps cs

/-- Split at the first occurrence of the substring `pat` (Python
`s.split(pat, 1)` when `pat in s`); `none` when `pat` does not occur. -/
def splitOnSub (pat : Bytes) : Bytes → Option (Bytes × Bytes)
  | [] => none
  | c :: cs =>
    if isPre pat (c :: cs) then some ([], (c :: cs).drop pat.length)
    else
      match splitOnSub pat cs with
      | none => none
      | some (a, b) => some (c :: a, b)

def digVal (c : Char) : Option Nat :=
  if c.isDigit then some (c.toNat - 48) else none

def digitsToNat (l : Bytes) : Option Nat :=
  if l = [] then none
  else
    l.foldl
      (fun acc c =>
        match acc, digVal c with
        | some a, some d => some (a * 10 + d)
        | _, _ => none)
      (some 0)

/-- Python `int(str)`: surrounding whitespace stripped, an optional sign,
then a nonempty run of decimal digits. -/
def pyInt (s : Bytes) : Option Int :=
  match pyStrip s with
  | '+' :: ds => (digitsToNat ds).map Int.ofNat
  | '-' :: ds => (digitsToNat ds).map (fun n => -(n : Int))
  | ds => (digitsToNat ds).map Int.ofNat

def natRepr (n : Nat) : Bytes := (toString n).data

def intRepr (i : Int) : Bytes := (toString i).data

-- ==================== PYTHON DICT MODEL ====================

/-- Python dict assignment `d[k] = v`: overwrite in place on an existing
key, append otherwise. -/
def setKey : List (Bytes × Bytes) → Bytes → Bytes → List (Bytes × Bytes)
  | [], k, v => [(k, v)]
  | (k', v') :: hs, k, v =>
    if k' = k then (k', v) :: hs else (k', v') :: setKey hs k v

/-- Python dict lookup `d[k]` / membership `k in d`. -/
def getVal : List (Bytes × Bytes) → Bytes → Option Bytes
  | [], _ => none
  | (k', v') :: hs, k => if k' = k then some v' else getVal hs k

-- ==================== REQUEST PARSER (parser.py) ====================

/-- Body of the `try:` block at parser.py lines 55-58: unpack
`request_line.split(" ", 2)` into three tokens (a wrong token count raises
`ValueError` from the unpack) and check the version token. -/
def parseRequestLineInner (request_line : Bytes) :
    Except PyExc (Bytes × Bytes × Bytes) :=
  match pySplitSpace2 request_line with
  | none => .error (.valueError ("not enough values to unpack".data))
  | some (method, path, version) =>
    if version = "HTTP/1.0".data ∨ version = "HTTP/1.1".data then
      .ok (method, path, version)
    else
      .error (.valueError ("Unsupported HTTP version: ".data ++ version))

/-- Lines 55-60 of parser.py: the `try` block above together with its
`except ValueError` clause, which re-raises every `ValueError` from the
block — including the "Unsupported HTTP version" one raised inside it —
as `Malformed request line: ...`. -/
def parseRequestLineTokens (request_line : Bytes) :
    Except PyExc (Bytes × Bytes × Bytes) :=
  match parseRequestLineInner request_line with
  | .error (.valueError _) =>
    .error (.valueError ("Malformed request line: ".data ++ request_line))
  | r => r

/-- Request-line phase (parser.py lines 40-60): one `readline` under the
5.0s timeout, the empty-read and length checks, then tokenisation of the
stripped line.  Returns the tokens and the unread rest of the stream. -/
def requestLinePhase (tout : Bool) (data : Bytes) :
    Except PyExc ((Bytes × Bytes × Bytes) × Bytes) :=
  if tout then .error (.valueError "Request line timeout after 5.0s".data)
  else
    let request_line_bytes := (readLineB data).1
    let rest := (readLineB data).2
    if request_line_bytes = [] then
      .error (.valueError "Client disconnected before sending request line".data)
    else if request_line_bytes.length > MAX_REQUEST_LINE then
      .error (.valueError ("Request line too long: ".data ++
        natRepr request_line_bytes.length ++ " bytes".data))
    else
      match parseRequestLineTokens (pyStrip request_line_bytes) with
      | .ok t => .ok (t, rest)
      | .error e => .error e

/-- Segmentation of the remaining stream into the successive results of
`readline` calls: each line keeps its `\n` terminator; a final fragment
without a terminator is its own line; a closed stream yields no lines. -/
def splitLines : Bytes → List Bytes
  | [] => []
  | c :: cs =>
    if c = '\n' then ['\n'] :: splitLines cs
    else
      match splitLines cs with
      | [] => [[c]]
      | l :: ls => (c :: l) :: ls


/-- Header phase (parser.py lines 62-96): read lines under the per-line
10.0s timeout until the blank terminator, tracking cumulative size and
line count against the limits, skipping lines without the `": "`
separator, and storing the rest with dict-assignment semantics.  The
stream is given as its `readline` segmentation (`splitLines`); an
exhausted segmentation is the empty read (`EOF`).  Returns the header
mapping, the unread lines, and the unused part of the timeout trace. -/
def headerPhase (touts : List Bool) (ls : List Bytes)
    (total_size header_count : Nat) (headers : List (Bytes × Bytes)) :
    Except PyExc (List (Bytes × Bytes) × List Bytes × List Bool) :=
  if headTO touts then .error (.valueError "Header timeout after 10.0s".data)
  else
    match ls with
    | [] => .error (.valueError "Client disconnected mid-headers".data)
    | header_line_bytes :: rest =>
      let total' := total_size + header_line_bytes.length
      if total' > MAX_TOTAL_HEADERS then
        .error (.valueError ("Headers too big: ".data ++ natRepr total' ++ " bytes".data))
      else
        let header_line := pyStrip header_line_bytes
        if header_line = [] then .ok (headers, rest, tailTO touts)
        else if header_line.length > MAX_HEADER_SIZE then
          .error (.valueError ("Header too long: ".data ++
            natRepr header_line.length ++ " bytes".data))
        else if header_count + 1 > MAX_HEADERS then
          .error (.valueError ("Too many headers: ".data ++ natRepr (header_count + 1)))
        else
          match splitOnSub (": ".data) header_line with
          | none => headerPhase (tailTO touts) rest total' (header_count + 1) headers
          | some (k, v) =>
            headerPhase (tailTO touts) rest total' (header_count + 1) (setKey headers k v)

/-- Body phase (parser.py lines 98-121): entered only when a
`Content-Length` header exists; parses it with `int`, applies the size
check, then `readexactly` under the 30.0s timeout.  The `except` clauses
rewrite the `int` failure, the timeout and the incomplete read into the
`ValueError`s shown.  Returns the body and the unread rest. -/
def bodyPhase (tout : Bool) (headers : List (Bytes × Bytes)) (data : Bytes) :
    Except PyExc (Bytes × Bytes) :=
  match getVal headers ("Content-Length".data) with
  | none => .ok ([], data)
  | some v =>
    match pyInt v with
    | none => .error (.valueError ("Invalid Content-Length: ".data ++ v))
    | some content_length =>
      if content_length > (MAX_BODY_SIZE : Int) then
        .error (.valueError ("Body too big: ".data ++
          intRepr content_length ++ " bytes".data))
      else if content_length < 0 then
        .error (.valueError "readexactly size can not be less than zero".data)
      else if tout then
        .error (.valueError "Body timeout after 30.0s".data)
      else
        match readExactly content_length.toNat data with
        | some (b, rest) => .ok (b, rest)
        | none =>
          .error (.valueError "Client disconnected before sending full body".data)

/-- `parse_request_production`: the three phases in order; any phase
failure fails the whole parse. -/
def parseRequestProduction (touts : List Bool) (data : Bytes) :
    Except PyExc HTTPRequest :=
  match requestLinePhase (headTO touts) data with
  | .error e => .error e
  | .ok (t, rest1) =>
    match headerPhase (tailTO touts) (splitLines rest1) 0 0 [] with
    | .error e => .error e
    | .ok (headers, restLines, touts2) =>
      match bodyPhase (headTO touts2) headers restLines.flatten with
      | .error e => .error e
      | .ok (body, _) => .ok ⟨t.1, t.2.1, t.2.2, headers, body⟩


-- ==================== SERVER (server.py) ====================

def PROXY_PREFIX : Bytes := "/proxy".data

/-- Whether `pat` occurs as a substring (Python `pat in s`). -/
def containsSub (pat l : Bytes) : Bool := (splitOnSub pat l).isSome

/-- `generate_response`: the `/metrics` body or the echo body. -/
def generate_response (request : HTTPRequest) (reqs errs : Nat) : Bytes :=
  if request.path = "/metrics".data then
    "requests_total ".data ++ natRepr reqs ++ "\n errors_total ".data ++
      natRepr errs ++ "\n".data
  else
    "Hello from DevProxy! You requested: ".data ++ request.method ++ " ".data ++
      request.path

/-- `send_response`: the 200 response bytes around a given body. -/
def sendResponseBytes (body : Bytes) : Bytes :=
  "HTTP/1.1 200 OK\r\nContent-Type: text/plain; charset=utf-8\r\nContent-Length: ".data ++
    natRepr body.length ++ "\r\nConnection: close\r\n\r\n".data ++ body

def badRequestBody : Bytes := "BAD REQUEST".data

/-- The 400 response written by `handle_client`'s `except ValueError`
branch (server.py lines 205-212); its `Content-Length` is computed from
the body. -/
def badRequestResponse : Bytes :=
  "HTTP/1.1 400 Bad Request\r\nContent-Type: text/plain; charset=utf-8\r\nContent-Length: ".data ++
    natRepr badRequestBody.length ++ "\r\nConnection: close\r\n\r\n".data ++
    badRequestBody

/-- The 408 response written by `handle_client`'s
`except asyncio.TimeoutError` branch (server.py lines 223-229), a literal
with a hard-coded `Content-Length: 15`. -/
def timeoutResponse : Bytes :=
  "HTTP/1.1 408 Request Timeout\r\nContent-Type: text/plain; charset=utf-8\r\nContent-Length: 15\r\nConnection: close\r\n\r\nRequest Timeout".data

/-- The 500 response written by `handle_client`'s `except Exception`
branch (server.py lines 241-247), a literal with a hard-coded
`Content-Length: 25`. -/
def internalErrorResponse : Bytes :=
  "HTTP/1.1 500 Internal Server Error\r\nContent-Type: text/plain; charset=utf-8\r\nContent-Length: 25\r\nConnection: close\r\n\r\nInternal Server Error".data

/-- The 504 response literal written by `proxy_to_upstream` on a connect
timeout (server.py line 135). -/
def gatewayTimeoutResponse : Bytes :=
  "HTTP/1.1 504 Gateway Timeout\r\nContent-Length: 0\r\n\r\n".data

/-- The 502 response literal written by `proxy_to_upstream` on any other
failure (server.py line 140). -/
def badGatewayResponse : Bytes :=
  "HTTP/1.1 502 Bad Gateway\r\nContent-Length: 0\r\n\r\n".data

/-- Serialization of the header dict exactly as `proxy_to_upstream` writes
it: one `Name: Value\r\n` line per entry in insertion order. -/
def serializeHeaders (hs : List (Bytes × Bytes)) : Bytes :=
  (hs.map (fun kv => kv.1 ++ ": ".data ++ kv.2 ++ "\r\n".data)).flatten

/-- The full byte sequence `proxy_to_upstream` sends to the upstream on
the success path (server.py lines 109-123): request line unchanged, the
headers with `Host` dict-assigned to `host:port`, the blank line, then
the body when non-empty (writing an empty body is a no-op, so the
unconditional concatenation is exact either way). -/
def upstreamPayload (request : HTTPRequest) (upstream_host : Bytes)
    (upstream_port : Nat) : Bytes :=
  request.method ++ " ".data ++ request.path ++ " ".data ++ request.version ++
    "\r\n".data ++
    serializeHeaders
      (setKey request.headers "Host".data
        (upstream_host ++ ":".data ++ natRepr upstream_port)) ++
    "\r\n".data ++ request.body

/-- Abstract outcome of the upstream interaction inside
`proxy_to_upstream`: the connect either times out, fails otherwise,
succeeds but a later write/drain fails, fails midway through streaming
after delivering some chunks, or streams to end-of-stream. -/
inductive UpstreamOutcome where
  | connectTimeout
  | connectFailure
  | sendFailure
  | streamFailure (chunks : List Bytes)
  | success (chunks : List Bytes)
deriving DecidableEq, Repr

/-- The byte chunks `proxy_to_upstream` writes to the client in each
outcome, including the guard `if not client_writer.is_closing()` on both
error responses (server.py lines 126-141). -/
def proxyClientWrites (outcome : UpstreamOutcome) (clientClosing : Bool) :
    List Bytes :=
  match outcome with
  | .connectTimeout => if clientClosing then [] else [gatewayTimeoutResponse]
  | .connectFailure => if clientClosing then [] else [badGatewayResponse]
  | .sendFailure => if clientClosing then [] else [badGatewayResponse]
  | .streamFailure chunks =>
    chunks ++ (if clientClosing then [] else [badGatewayResponse])
  | .success chunks => chunks

/-- The byte chunks `proxy_to_upstream` writes to the upstream in each
outcome: nothing when the connect fails, the full payload otherwise. -/
def proxyUpstreamWrites (outcome : UpstreamOutcome) (request : HTTPRequest)
    (upstream_host : Bytes) (upstream_port : Nat) : List Bytes :=
  match outcome with
  | .connectTimeout => []
  | .connectFailure => []
  | _ => [upstreamPayload request upstream_host upstream_port]

/-- The path rewrite `handle_client` applies before forwarding (server.py
lines 176-179), identical to the `strip_proxy_prefix` helper in
`tests/test_path_handling.py`: outside the reserved path the input passes
through. -/
def stripProxyPath (path : Bytes) : Bytes :=
  if isPre PROXY_PREFIX path then
    let new_path := path.drop PROXY_PREFIX.length
    if new_path = [] ∨ ¬ isPre "/".data new_path then
      "/".data ++ pyLstripSlash new_path
    else new_path
  else path

/-- What `handle_client` does after a parse attempt: forwarding, local
200 response, or one of the three error responses. -/
inductive HandleResult where
  | proxied (request : HTTPRequest)
  | localResp (response : Bytes)
  | clientError (response : Bytes)
  | timeoutResp (response : Bytes)
  | internalError (response : Bytes)
deriving DecidableEq, Repr

/-- Routing on a successfully parsed request (server.py lines 176-192):
a path starting with the reserved `/proxy` string delegates to the
Forwarder with the rewritten path and otherwise-identical request; any
other path gets the local 200 response. -/
def handleParsed (request : HTTPRequest) (reqs errs : Nat) : HandleResult :=
  if isPre PROXY_PREFIX request.path then
    HandleResult.proxied
      ⟨request.method, stripProxyPath request.path, request.version,
        request.headers, request.body⟩
  else
    HandleResult.localResp (sendResponseBytes (generate_response request reqs errs))

/-- `handle_client`'s parse-and-dispatch: the `except` clauses map a
`ValueError` to the 400 response, an `asyncio.TimeoutError` to the 408
response and any other exception to the 500 response (server.py lines
166-251). -/
def handleClient (touts : List Bool) (data : Bytes) (reqs errs : Nat) :
    HandleResult :=
  match parseRequestProduction touts data with
  | .ok request => handleParsed request reqs errs
  | .error (.valueError _) => .clientError badRequestResponse
  | .error .timeoutError => .timeoutResp timeoutResponse
  | .error (.otherExc _) => .internalError internalErrorResponse

-- ==================== RESPONSE INSPECTION ====================

/-- The bytes after the first blank line of a response: the body the
client reads. -/
def bodyOf (r : Bytes) : Bytes :=
  match splitOnSub "\r\n\r\n".data r with
  | some (_, b) => b
  | none => []

/-- The value of the first `Content-Length` header of a response. -/
def declaredContentLength (r : Bytes) : Option Nat :=
  match splitOnSub "Content-Length: ".data r with
  | none => none
  | some (_, after) =>
    match splitOnSub "\r\n".data after with
    | none => none
    | some (digits, _) => digitsToNat digits

/-- Whether a response carries a `Connection: close` header line. -/
def hasConnClose (r : Bytes) : Bool :=
  containsSub "Connection: close\r\n".data r

/-- Formalisation of the spec's wording for the Host rewrite: copy all
request headers but overwrite the value of `Host`. -/
def specHostRewrite (hs : List (Bytes × Bytes)) (v : Bytes) :
    List (Bytes × Bytes) :=
  hs.map (fun kv => if kv.1 = "Host".data then ("Host".data, v) else kv)

-- ==================== HELPER LEMMAS ====================

theorem readLineB_append (s : Bytes) :
    (readLineB s).1 ++ (readLineB s).2 = s := by
  induction s with
  | nil => rfl
  | cons c cs ih =>
    by_cases h : c = '\n' <;> simp [readLineB, h, ih]

/-- The segmentation loses no bytes. -/
theorem splitLines_flatten (s : Bytes) : (splitLines s).flatten = s := by
  induction s with
  | nil => rfl
  | cons c cs ih =>
    by_cases h : c = '\n'
    · simp [splitLines, h, ih]
    · simp only [splitLines, if_neg h]
      cases hcs : splitLines cs with
      | nil =>
        rw [hcs] at ih
        simp only [List.flatten_nil] at ih
        simp [← ih]
      | cons l ls =>
        rw [hcs] at ih
        simp only [List.flatten_cons] at ih
        simp [List.flatten_cons, ih]

/-- One `readline` call takes exactly the first segment of the
segmentation: the model of the header loop over `splitLines` performs the
same reads as the source's repeated `readline`. -/
theorem splitLines_readLineB (s : Bytes) (h : s ≠ []) :
    splitLines s = (readLineB s).1 :: splitLines (readLineB s).2 := by
  induction s with
  | nil => exact absurd rfl h
  | cons c cs ih =>
    by_cases hc : c = '\n'
    · simp [splitLines, readLineB, hc]
    · simp only [splitLines, readLineB, if_neg hc]
      by_cases hcs : cs = []
      · subst hcs
        simp [splitLines, readLineB]
      · rw [ih hcs]


theorem isPre_append_self (pat t : Bytes) : isPre pat (pat ++ t) = true := by
  induction pat with
  | nil => rfl
  | cons p ps ih => simp [isPre, ih]

theorem isPre_eq_append (pat l : Bytes) (h : isPre pat l = true) :
    ∃ t, l = pat ++ t := by
  induction pat generalizing l with
  | nil => exact ⟨l, rfl⟩
  | cons p ps ih =>
    cases l with
    | nil => simp [isPre] at h
    | cons c cs =>
      simp only [isPre, Bool.and_eq_true, decide_eq_true_eq] at h
      obtain ⟨t, ht⟩ := ih cs h.2
      exact ⟨t, by simp [h.1, ht]⟩

theorem splitOnSub_decomp (pat l x y : Bytes)
    (h : splitOnSub pat l = some (x, y)) : l = x ++ pat ++ y := by
  induction l generalizing x with
  | nil => simp [splitOnSub] at h
  | cons c cs ih =>
    by_cases hp : isPre pat (c :: cs) = true
    · simp only [splitOnSub, if_pos hp] at h
      obtain ⟨t, ht⟩ := isPre_eq_append pat (c :: cs) hp
      injection h with h1
      injection h1 with hx hy
      subst hx
      rw [ht] at hy ⊢
      simp only [List.drop_append_eq_append_drop, List.drop_length,
        Nat.sub_self, List.drop_zero, List.drop_nil, List.nil_append] at hy
      simp [← hy]
    · simp only [splitOnSub, if_neg hp] at h
      cases hs : splitOnSub pat cs with
      | none => rw [hs] at h; simp at h
      | some ab =>
        rw [hs] at h
        obtain ⟨a, b⟩ := ab
        simp only [Option.some.injEq, Prod.mk.injEq] at h
        obtain ⟨hx, hy⟩ := h
        subst hy
        rw [← hx]
        simp [ih a hs]

theorem containsSub_append_mid (pat a b : Bytes) (hne : pat ≠ []) :
    containsSub pat (a ++ pat ++ b) = true := by
  induction a with
  | nil =>
    cases pat with
    | nil => exact absurd rfl hne
    | cons p ps =>
      have h : isPre (p :: ps) (p :: (ps ++ b)) = true := by
        simpa using isPre_append_self (p :: ps) b
      simp [containsSub, splitOnSub, h]
  | cons c cs ih =>
    have hih : (splitOnSub pat (cs ++ (pat ++ b))).isSome = true := by
      simpa [containsSub, List.append_assoc] using ih
    show (splitOnSub pat ((c :: cs) ++ pat ++ b)).isSome = true
    simp only [List.cons_append, List.append_assoc]
    by_cases hp : isPre pat (c :: (cs ++ (pat ++ b))) = true
    · simp [splitOnSub, hp]
    · rcases hs : splitOnSub pat (cs ++ (pat ++ b)) with _ | ⟨a', b'⟩
      · rw [hs] at hih; simp at hih
      · simp [splitOnSub, hp, hs]

theorem getVal_setKey_same (hs : List (Bytes × Bytes)) (k v : Bytes) :
    getVal (setKey hs k v) k = some v := by
  induction hs with
  | nil => simp [setKey, getVal]
  | cons kv hs ih =>
    obtain ⟨k', v'⟩ := kv
    by_cases h : k' = k <;> simp [setKey, getVal, h, ih]

theorem getVal_setKey_other (hs : List (Bytes × Bytes)) (k k' v : Bytes)
    (hne : k' ≠ k) : getVal (setKey hs k v) k' = getVal hs k' := by
  have hne' : k ≠ k' := Ne.symm hne
  induction hs with
  | nil => simp [setKey, getVal, hne']
  | cons kv hs ih =>
    obtain ⟨k0, v0⟩ := kv
    by_cases h : k0 = k
    · subst h
      simp [setKey, getVal, hne']
    · simp [setKey, getVal, h, ih]

/-- On a duplicate-free key list, Python dict assignment of an existing
key is exactly "overwrite that key's value in place, touch nothing
else"; a missing key is appended at the end. -/
theorem setKey_eq_rewrite (hs : List (Bytes × Bytes)) (k v : Bytes)
    (hnd : (hs.map Prod.fst).Nodup) :
    setKey hs k v =
      if (getVal hs k).isSome then
        hs.map (fun kv => if kv.1 = k then (k, v) else kv)
      else hs ++ [(k, v)] := by
  induction hs with
  | nil => simp [setKey, getVal]
  | cons kv hs ih =>
    obtain ⟨k0, v0⟩ := kv
    simp only [List.map_cons, List.nodup_cons] at hnd
    by_cases h : k0 = k
    · subst h
      have hall : ∀ kv' ∈ hs, (if kv'.1 = k0 then (k0, v) else kv') = kv' := by
        intro kv' hmem
        have : kv'.1 ≠ k0 := fun he => hnd.1 (he ▸ List.mem_map_of_mem Prod.fst hmem)
        simp [this]
      simp [setKey, getVal, List.map_congr_left hall]
    · have hstep : setKey ((k0, v0) :: hs) k v = (k0, v0) :: setKey hs k v := by
        simp [setKey, h]
      rw [hstep, ih hnd.2]
      by_cases hg : (getVal hs k).isSome <;> simp [getVal, h, hg]


-- ==================== PARSER INVERSION LEMMAS ====================

theorem readExactly_some (n : Nat) (s b rest : Bytes)
    (h : readExactly n s = some (b, rest)) :
    n ≤ s.length ∧ b = s.take n ∧ rest = s.drop n := by
  unfold readExactly at h
  split at h
  · simp only [Option.some.injEq, Prod.mk.injEq] at h
    exact ⟨by assumption, h.1.symm, h.2.symm⟩
  · simp at h

theorem bodyPhase_ok (t : Bool) (hs : List (Bytes × Bytes)) (d b rest : Bytes)
    (h : bodyPhase t hs d = .ok (b, rest)) :
    (getVal hs "Content-Length".data = none ∧ b = [] ∧ rest = d) ∨
    (∃ v L, getVal hs "Content-Length".data = some v ∧ pyInt v = some L ∧
      0 ≤ L ∧ b.length = L.toNat) := by
  cases hcv : getVal hs ("Content-Length".data) with
  | none =>
    simp only [bodyPhase, hcv] at h
    simp only [Except.ok.injEq, Prod.mk.injEq] at h
    exact Or.inl ⟨rfl, h.1.symm, h.2.symm⟩
  | some v =>
    simp only [bodyPhase, hcv] at h
    cases hpi : pyInt v with
    | none => rw [hpi] at h; simp at h
    | some L =>
      rw [hpi] at h
      by_cases h1 : L > (MAX_BODY_SIZE : Int)
      · simp [h1] at h
      by_cases h2 : L < 0
      · simp [h1, h2] at h
      cases t with
      | true => simp [h1, h2] at h
      | false =>
        simp only [h1, h2, if_false, Bool.false_eq_true] at h
        cases hre : readExactly L.toNat d with
        | none => simp [hre] at h
        | some p =>
          obtain ⟨b', rest'⟩ := p
          rw [hre] at h
          simp only [Except.ok.injEq, Prod.mk.injEq] at h
          obtain ⟨hle, hb, _⟩ := readExactly_some _ _ _ _ hre
          refine Or.inr ⟨v, L, rfl, hpi, by omega, ?_⟩
          rw [← h.1, hb]
          simp [List.length_take, Nat.min_eq_left hle]

theorem parseRequestProduction_ok (touts : List Bool) (data : Bytes)
    (req : HTTPRequest) (h : parseRequestProduction touts data = .ok req) :
    ∃ t rest1 hs restL touts2 b rest2,
      requestLinePhase (headTO touts) data = .ok (t, rest1) ∧
      headerPhase (tailTO touts) (splitLines rest1) 0 0 [] = .ok (hs, restL, touts2) ∧
      bodyPhase (headTO touts2) hs restL.flatten = .ok (b, rest2) ∧
      req = ⟨t.1, t.2.1, t.2.2, hs, b⟩ := by
  unfold parseRequestProduction at h
  cases h1 : requestLinePhase (headTO touts) data with
  | error e => rw [h1] at h; simp at h
  | ok p1 =>
    obtain ⟨t, rest1⟩ := p1
    rw [h1] at h
    simp only [] at h
    cases h2 : headerPhase (tailTO touts) (splitLines rest1) 0 0 [] with
    | error e => rw [h2] at h; simp at h
    | ok p2 =>
      obtain ⟨hs, restL, touts2⟩ := p2
      rw [h2] at h
      simp only [] at h
      cases h3 : bodyPhase (headTO touts2) hs restL.flatten with
      | error e => rw [h3] at h; simp at h
      | ok p3 =>
        obtain ⟨b, rest2⟩ := p3
        rw [h3] at h
        simp only [Except.ok.injEq] at h
        exact ⟨t, rest1, hs, restL, touts2, b, rest2, rfl, h2, h3, h.symm⟩

theorem isPre_append_of (pat l b : Bytes) (h : isPre pat l = true) :
    isPre pat (l ++ b) = true := by
  induction pat generalizing l with
  | nil => rfl
  | cons p ps ih =>
    cases l with
    | nil => simp [isPre] at h
    | cons c cs =>
      simp only [isPre, Bool.and_eq_true, decide_eq_true_eq] at h ⊢
      exact ⟨h.1, ih cs h.2⟩

theorem isPre_of_append_le (pat l b : Bytes) (h : isPre pat (l ++ b) = true)
    (hlen : pat.length ≤ l.length) : isPre pat l = true := by
  induction pat generalizing l with
  | nil => rfl
  | cons p ps ih =>
    cases l with
    | nil => simp at hlen
    | cons c cs =>
      simp only [List.cons_append, isPre, Bool.and_eq_true, decide_eq_true_eq] at h ⊢
      simp only [List.length_cons] at hlen
      exact ⟨h.1, ih cs h.2 (by omega)⟩

theorem isPre_length_le (pat l : Bytes) (h : isPre pat l = true) :
    pat.length ≤ l.length := by
  obtain ⟨t, ht⟩ := isPre_eq_append pat l h
  subst ht
  simp

/-- The first occurrence of a pattern inside `a` stays the first
occurrence after appending more bytes: a later straddle of the `a`/`b`
boundary cannot come earlier. -/
theorem splitOnSub_append (pat a b x y : Bytes)
    (h : splitOnSub pat a = some (x, y)) :
    splitOnSub pat (a ++ b) = some (x, y ++ b) := by
  induction a generalizing x y with
  | nil => simp [splitOnSub] at h
  | cons c cs ih =>
    by_cases hp : isPre pat (c :: cs) = true
    · simp only [splitOnSub, if_pos hp] at h
      have hlen := isPre_length_le pat (c :: cs) hp
      have hpre : isPre pat (c :: (cs ++ b)) = true := by
        have := isPre_append_of pat (c :: cs) b hp
        simpa using this
      injection h with h1
      injection h1 with hx hy
      subst hx
      rw [List.cons_append]
      simp only [splitOnSub, if_pos hpre, Option.some.injEq, Prod.mk.injEq,
        true_and]
      rw [← hy]
      have : (c :: (cs ++ b)) = (c :: cs) ++ b := by simp
      rw [this, List.drop_append_of_le_length hlen]
    · simp only [splitOnSub, if_neg hp] at h
      cases hcs : splitOnSub pat cs with
      | none => rw [hcs] at h; simp at h
      | some ab =>
        obtain ⟨a', b'⟩ := ab
        rw [hcs] at h
        simp only [Option.some.injEq, Prod.mk.injEq] at h
        have hdec := splitOnSub_decomp pat cs a' b' hcs
        have hlen : pat.length ≤ cs.length := by
          rw [hdec]
          simp only [List.length_append]
          omega
        have hp' : isPre pat (c :: (cs ++ b)) = false := by
          by_contra hcon
          rw [Bool.not_eq_false] at hcon
          have : isPre pat (c :: cs) = true :=
            isPre_of_append_le pat (c :: cs) b (by simpa using hcon)
              (by simp only [List.length_cons]; omega)
          exact hp this
        rw [List.cons_append]
        simp only [splitOnSub, hp', Bool.false_eq_true, if_false]
        rw [ih a' b' hcs]
        rw [← h.1, ← h.2]

theorem splitAtFirst_append (sep : Char) (m r : Bytes) (h : sep ∉ m) :
    splitAtFirst sep (m ++ sep :: r) = some (m, r) := by
  induction m with
  | nil => simp [splitAtFirst]
  | cons c cs ih =>
    have hc : ¬ (c = sep) := by
      intro he
      apply h
      rw [← he]
      exact List.mem_cons_self c cs
    simp only [List.cons_append, splitAtFirst, if_neg hc, List.append_eq]
    rw [ih (fun hm => h (List.mem_cons_of_mem c hm))]

theorem pySplitSpace2_eq (m p v : Bytes) (hm : ' ' ∉ m) (hp : ' ' ∉ p) :
    pySplitSpace2 (m ++ ' ' :: (p ++ ' ' :: v)) = some (m, p, v) := by
  unfold pySplitSpace2
  rw [splitAtFirst_append ' ' m _ hm]
  simp only [splitAtFirst_append ' ' p v hp]

-- ==================== CLAIM THEOREMS ====================

theorem parseRequestLineInner_shape (line : Bytes) :
    (∃ t, parseRequestLineInner line = .ok t) ∨
    (∃ m, parseRequestLineInner line = .error (.valueError m)) := by
  unfold parseRequestLineInner
  cases hs : pySplitSpace2 line with
  | none => exact Or.inr ⟨_, rfl⟩
  | some t =>
    obtain ⟨m, p, v⟩ := t
    by_cases hv : v = "HTTP/1.0".data ∨ v = "HTTP/1.1".data
    · exact Or.inl ⟨(m, p, v), by simp [hv]⟩
    · exact Or.inr ⟨"Unsupported HTTP version: ".data ++ v, by simp [hv]⟩

/-- C1: the claim says a parser phase timeout (request line 5.0s, header
10.0s, body 30.0s) makes the Connection Handler write a `408 Request
Timeout` response with body "Request Timeout", not a 400.  The code
violates this: `parse_request_production` catches every
`asyncio.TimeoutError` and re-raises it as a `ValueError`, so
`handle_client`'s `except ValueError` branch answers with the
`400 Bad Request` response and body "BAD REQUEST"; the dedicated
`except asyncio.TimeoutError` (408) branch is unreachable for parser
timeouts.  The theorem evaluates the model on all three timeout kinds. -/
theorem C1_parser_timeout_answered_with_400 :
    (∀ (touts : List Bool) (data : Bytes),
      parseRequestProduction (true :: touts) data =
        .error (.valueError "Request line timeout after 5.0s".data)) ∧
    (∀ (touts : List Bool) (data : Bytes) (reqs errs : Nat),
      handleClient (true :: touts) data reqs errs =
        .clientError badRequestResponse) ∧
    parseRequestProduction [false, true]
      "GET / HTTP/1.1\r\nHost: a\r\n\r\n".data =
      .error (.valueError "Header timeout after 10.0s".data) ∧
    parseRequestProduction [false, false, false, true]
      "GET / HTTP/1.1\r\nContent-Length: 3\r\n\r\nab".data =
      .error (.valueError "Body timeout after 30.0s".data) ∧
    (∀ reqs errs : Nat,
      handleClient [false, true] "GET / HTTP/1.1\r\nHost: a\r\n\r\n".data
          reqs errs =
        .clientError badRequestResponse) ∧
    bodyOf badRequestResponse = "BAD REQUEST".data ∧
    bodyOf timeoutResponse = "Request Timeout".data ∧
    badRequestBody ≠ "Request Timeout".data :=
  ⟨fun _ _ => rfl, fun _ _ _ _ => rfl, by decide, by decide,
    fun _ _ => rfl, by decide, by decide, by decide⟩

/-- C3: the claim says a request line whose third token is neither
`HTTP/1.0` nor `HTTP/1.1` fails with a named "unsupported version"
condition distinct from "malformed request line".  The code violates
this: the `raise ValueError("Unsupported HTTP version: ...")` sits inside
the very `try` block whose `except ValueError` clause re-raises every
`ValueError` as `Malformed request line: ...`, so the only conditions the
request-line tokeniser ever surfaces are success or "malformed request
line" — an unsupported version and a wrong token count are
indistinguishable upstream. -/
theorem C3_unsupported_version_not_distinct :
    (∀ line : Bytes,
      (∃ t, parseRequestLineTokens line = .ok t) ∨
      parseRequestLineTokens line =
        .error (.valueError ("Malformed request line: ".data ++ line))) ∧
    parseRequestLineInner "GET / HTTP/2.0".data =
      .error (.valueError "Unsupported HTTP version: HTTP/2.0".data) ∧
    parseRequestProduction [] "GET / HTTP/2.0\r\nHost: a\r\n\r\n".data =
      .error (.valueError "Malformed request line: GET / HTTP/2.0".data) ∧
    parseRequestProduction [] "GETnospace\r\nHost: a\r\n\r\n".data =
      .error (.valueError "Malformed request line: GETnospace".data) := by
  refine ⟨?_, by decide, by decide, by decide⟩
  intro line
  rcases parseRequestLineInner_shape line with ⟨t, ht⟩ | ⟨m, hm⟩
  · exact Or.inl ⟨t, by unfold parseRequestLineTokens; rw [ht]⟩
  · exact Or.inr (by unfold parseRequestLineTokens; rw [hm])

/-- C6: the path-stripping policy applied before forwarding satisfies the
five stated equations, and every path that does not begin with `/proxy`
passes through unchanged and is answered locally by the handler. -/
theorem C6_path_stripping :
    stripProxyPath "/proxy/".data = "/".data ∧
    stripProxyPath "/proxy/test".data = "/test".data ∧
    stripProxyPath "/proxy".data = "/".data ∧
    stripProxyPath "/proxy/api/users".data = "/api/users".data ∧
    stripProxyPath "/health".data = "/health".data ∧
    (∀ p : Bytes, isPre PROXY_PREFIX p = false → stripProxyPath p = p) ∧
    (∀ (req : HTTPRequest) (reqs errs : Nat),
      isPre PROXY_PREFIX req.path = false →
      handleParsed req reqs errs =
        .localResp (sendResponseBytes (generate_response req reqs errs))) := by
  refine ⟨by decide, by decide, by decide, by decide, by decide, ?_, ?_⟩
  · intro p h
    simp [stripProxyPath, h]
  · intro req reqs errs h
    simp [handleParsed, h]

theorem C6_path_stripping_witness :
    stripProxyPath "/health".data = "/health".data ∧
    handleParsed ⟨"GET".data, "/health".data, "HTTP/1.1".data, [], []⟩ 1 0 =
      .localResp (sendResponseBytes
        (generate_response
          ⟨"GET".data, "/health".data, "HTTP/1.1".data, [], []⟩ 1 0)) :=
  ⟨C6_path_stripping.2.2.2.2.2.1 "/health".data (by decide),
   C6_path_stripping.2.2.2.2.2.2
     ⟨"GET".data, "/health".data, "HTTP/1.1".data, [], []⟩ 1 0 (by decide)⟩

/-- C10: the routing check is a plain string-match on the six characters
of `/proxy` with no segment-boundary requirement: every parsed request
whose path merely begins with those characters — `/proxytest` included —
is delegated to the Forwarder with the remainder normalised by removing
leading slashes and prepending `/` (so `/proxytest` forwards as `/test`),
and is never answered locally. -/
theorem C10_plain_string_routing :
    (∀ (req : HTTPRequest) (reqs errs : Nat),
      isPre PROXY_PREFIX req.path = true →
      handleParsed req reqs errs =
        .proxied ⟨req.method, stripProxyPath req.path, req.version,
          req.headers, req.body⟩) ∧
    isPre PROXY_PREFIX "/proxytest".data = true ∧
    stripProxyPath "/proxytest".data = "/test".data ∧
    (∀ (m ver : Bytes) (hs : List (Bytes × Bytes)) (b : Bytes)
        (reqs errs : Nat),
      handleParsed ⟨m, "/proxytest".data, ver, hs, b⟩ reqs errs =
        .proxied ⟨m, "/test".data, ver, hs, b⟩) := by
  refine ⟨?_, by decide, by decide, ?_⟩
  · intro req reqs errs h
    simp [handleParsed, h]
  · intro m ver hs b reqs errs
    have hpre : isPre PROXY_PREFIX ("/proxytest".data) = true := by decide
    have hstrip : stripProxyPath "/proxytest".data = "/test".data := by decide
    simp [handleParsed, hpre, hstrip]

theorem C10_plain_string_routing_witness :
    handleParsed ⟨"GET".data, "/proxytest".data, "HTTP/1.1".data, [], []⟩ 0 0 =
      .proxied ⟨"GET".data, stripProxyPath "/proxytest".data, "HTTP/1.1".data,
        [], []⟩ :=
  C10_plain_string_routing.1
    ⟨"GET".data, "/proxytest".data, "HTTP/1.1".data, [], []⟩ 0 0 (by decide)

/-- C2 counterexample: the claim (every self-generated response carries
`Connection: close` and a `Content-Length` equal to the exact body
length) is false at two concrete responses: the 504 and 502 literals
contain no `Connection: close` header, and the 500 literal declares
`Content-Length: 25` for its 21-byte body "Internal Server Error". -/
theorem C2_counterexample :
    hasConnClose gatewayTimeoutResponse = false ∧
    hasConnClose badGatewayResponse = false ∧
    declaredContentLength internalErrorResponse = some 25 ∧
    bodyOf internalErrorResponse = "Internal Server Error".data ∧
    ("Internal Server Error".data).length = 21 := by
  decide

/-- C2 (amended): the 200, 400 and 408 responses carry `Connection:
close` and a `Content-Length` equal to the exact byte length of their
body (for the 200 response the declared value is the decimal rendering
of the body's length, whatever the body); the 500 response carries
`Connection: close` but declares `Content-Length: 25` for its 21-byte
body; the 502 and 504 responses have empty bodies with a matching
`Content-Length: 0` but carry no `Connection: close` header. -/
theorem C2_responses_amended :
    (∀ body : Bytes, hasConnClose (sendResponseBytes body) = true) ∧
    (∀ body : Bytes,
      splitOnSub "Content-Length: ".data (sendResponseBytes body) =
        some ("HTTP/1.1 200 OK\r\nContent-Type: text/plain; charset=utf-8\r\n".data,
          natRepr body.length ++ "\r\nConnection: close\r\n\r\n".data ++ body)) ∧
    hasConnClose badRequestResponse = true ∧
    declaredContentLength badRequestResponse = some 11 ∧
    bodyOf badRequestResponse = "BAD REQUEST".data ∧
    hasConnClose timeoutResponse = true ∧
    declaredContentLength timeoutResponse = some 15 ∧
    bodyOf timeoutResponse = "Request Timeout".data ∧
    hasConnClose internalErrorResponse = true ∧
    declaredContentLength gatewayTimeoutResponse = some 0 ∧
    bodyOf gatewayTimeoutResponse = [] ∧
    declaredContentLength badGatewayResponse = some 0 ∧
    bodyOf badGatewayResponse = [] := by
  refine ⟨?_, ?_, by decide, by decide, by decide, by decide, by decide,
    by decide, by decide, by decide, by decide, by decide, by decide⟩
  · intro body
    unfold hasConnClose sendResponseBytes
    have hsplit : "\r\nConnection: close\r\n\r\n".data =
        "\r\n".data ++ "Connection: close\r\n".data ++ "\r\n".data := by decide
    rw [hsplit]
    have h := containsSub_append_mid ("Connection: close\r\n".data)
      ("HTTP/1.1 200 OK\r\nContent-Type: text/plain; charset=utf-8\r\nContent-Length: ".data ++
        natRepr body.length ++ "\r\n".data)
      ("\r\n".data ++ body) (by decide)
    simpa [List.append_assoc] using h
  · intro body
    unfold sendResponseBytes
    have hA : splitOnSub "Content-Length: ".data
        "HTTP/1.1 200 OK\r\nContent-Type: text/plain; charset=utf-8\r\nContent-Length: ".data =
        some ("HTTP/1.1 200 OK\r\nContent-Type: text/plain; charset=utf-8\r\n".data,
          []) := by decide
    have h := splitOnSub_append "Content-Length: ".data
      "HTTP/1.1 200 OK\r\nContent-Type: text/plain; charset=utf-8\r\nContent-Length: ".data
      (natRepr body.length ++ "\r\nConnection: close\r\n\r\n".data ++ body)
      _ _ hA
    simpa [List.append_assoc] using h

/-- C8 counterexample: the claim states that on any non-timeout upstream
failure the Forwarder writes exactly the fixed 502 response; but the 502
write sits under the same `if not client_writer.is_closing()` guard as
the 504 one, so with the client connection already closing nothing at
all is written. -/
theorem C8_counterexample :
    proxyClientWrites UpstreamOutcome.connectFailure true = [] ∧
    ([] : List Bytes) ≠ [badGatewayResponse] :=
  ⟨rfl, by decide⟩

/-- C8 (amended): on an upstream connect timeout the Forwarder writes
exactly the fixed zero-length-body 504 response when the client
connection is not already closing (nothing otherwise) and sends nothing
upstream — no retry; on any other failure during connect, send or
streaming it writes, after any chunks already streamed, exactly the
fixed zero-length-body 502 response, again only when the client
connection is not already closing. -/
theorem C8_forwarder_errors_amended :
    (∀ closing : Bool,
      proxyClientWrites UpstreamOutcome.connectTimeout closing =
        if closing then [] else [gatewayTimeoutResponse]) ∧
    (∀ closing : Bool,
      proxyClientWrites UpstreamOutcome.connectFailure closing =
        if closing then [] else [badGatewayResponse]) ∧
    (∀ closing : Bool,
      proxyClientWrites UpstreamOutcome.sendFailure closing =
        if closing then [] else [badGatewayResponse]) ∧
    (∀ (closing : Bool) (chunks : List Bytes),
      proxyClientWrites (UpstreamOutcome.streamFailure chunks) closing =
        chunks ++ if closing then [] else [badGatewayResponse]) ∧
    (∀ (request : HTTPRequest) (host : Bytes) (port : Nat),
      proxyUpstreamWrites UpstreamOutcome.connectTimeout request host port = []) ∧
    gatewayTimeoutResponse =
      "HTTP/1.1 504 Gateway Timeout\r\nContent-Length: 0\r\n\r\n".data ∧
    badGatewayResponse =
      "HTTP/1.1 502 Bad Gateway\r\nContent-Length: 0\r\n\r\n".data :=
  ⟨fun _ => rfl, fun _ => rfl, fun _ => rfl, fun _ _ => rfl,
    fun _ _ _ => rfl, rfl, rfl⟩

/-- C9: on a successfully forwarded request the bytes sent upstream are
the request line unchanged, then every header of the parsed request
unchanged except that the value of `Host` is overwritten to
`upstream_host:upstream_port` (appended at the end when the request had
no `Host` header), then the blank-line terminator, then the body
verbatim; lookups of every other header key are untouched. -/
theorem C9_upstream_bytes :
    ∀ (request : HTTPRequest) (upstream_host : Bytes) (upstream_port : Nat)
      (chunks : List Bytes),
      (request.headers.map Prod.fst).Nodup →
      (proxyUpstreamWrites (.success chunks) request upstream_host
          upstream_port =
        [request.method ++ " ".data ++ request.path ++ " ".data ++
          request.version ++ "\r\n".data ++
          serializeHeaders
            (if (getVal request.headers "Host".data).isSome then
              specHostRewrite request.headers
                (upstream_host ++ ":".data ++ natRepr upstream_port)
            else
              request.headers ++
                [("Host".data,
                  upstream_host ++ ":".data ++ natRepr upstream_port)]) ++
          "\r\n".data ++ request.body] ∧
      getVal (setKey request.headers "Host".data
          (upstream_host ++ ":".data ++ natRepr upstream_port)) "Host".data =
        some (upstream_host ++ ":".data ++ natRepr upstream_port) ∧
      (∀ k : Bytes, k ≠ "Host".data →
        getVal (setKey request.headers "Host".data
            (upstream_host ++ ":".data ++ natRepr upstream_port)) k =
          getVal request.headers k)) := by
  intro request host port chunks hnd
  refine ⟨?_, getVal_setKey_same _ _ _, fun k hk => getVal_setKey_other _ _ _ _ hk⟩
  show [upstreamPayload request host port] = _
  unfold upstreamPayload
  rw [setKey_eq_rewrite _ _ _ hnd]
  rfl

theorem C9_upstream_bytes_witness :
    getVal (setKey [("Host".data, "localhost".data), ("Accept".data, "x".data)]
        "Host".data ("upstream".data ++ ":".data ++ natRepr 3001)) "Host".data =
      some ("upstream".data ++ ":".data ++ natRepr 3001) :=
  (C9_upstream_bytes
    ⟨"GET".data, "/".data, "HTTP/1.1".data,
      [("Host".data, "localhost".data), ("Accept".data, "x".data)], []⟩
    "upstream".data 3001 [] (by decide)).2.1

theorem readLineB_replicate (n : Nat) :
    readLineB (List.replicate n 'a') = (List.replicate n 'a', []) := by
  induction n with
  | zero => rfl
  | succ n ih => simp [readLineB, List.replicate_succ, ih]

set_option maxRecDepth 4096 in
/-- C5: for a request line of N raw bytes (as returned by the readline,
terminator included): N > 4096 always fails with the "request line too
long" condition, and N ≤ 4096 with valid syntax — three space-separated
tokens whose third is a supported version — always makes the
request-line phase succeed with exactly those tokens. -/
theorem C5_request_line_length_bounds :
    (∀ data : Bytes, (readLineB data).1.length > 4096 →
      requestLinePhase false data =
        .error (.valueError ("Request line too long: ".data ++
          natRepr (readLineB data).1.length ++ " bytes".data))) ∧
    (∀ (data m p v : Bytes),
      (readLineB data).1.length ≤ 4096 →
      pyStrip (readLineB data).1 = m ++ ' ' :: (p ++ ' ' :: v) →
      ' ' ∉ m → ' ' ∉ p →
      (v = "HTTP/1.0".data ∨ v = "HTTP/1.1".data) →
      requestLinePhase false data = .ok ((m, p, v), (readLineB data).2)) := by
  constructor
  · intro data h
    have hne : (readLineB data).1 ≠ [] := by
      intro h0
      rw [h0] at h
      simp at h
    simp [requestLinePhase, MAX_REQUEST_LINE, hne, h]
  · intro data m p v hlen hsyn hm hp hv
    have hne : (readLineB data).1 ≠ [] := by
      intro h0
      rw [h0] at hsyn
      simp [pyStrip] at hsyn
    have hnot : ¬ (readLineB data).1.length > 4096 := by omega
    have htok : parseRequestLineTokens (m ++ ' ' :: (p ++ ' ' :: v)) =
        .ok (m, p, v) := by
      unfold parseRequestLineTokens parseRequestLineInner
      rw [pySplitSpace2_eq m p v hm hp]
      simp [hv]
    simp [requestLinePhase, MAX_REQUEST_LINE, hne, hnot, hsyn, htok]

theorem C5_request_line_length_bounds_witness :
    (readLineB (List.replicate 4097 'a')).1.length > 4096 ∧
    requestLinePhase false (List.replicate 4097 'a') =
      .error (.valueError ("Request line too long: ".data ++
        natRepr (readLineB (List.replicate 4097 'a')).1.length ++
          " bytes".data)) ∧
    requestLinePhase false "GET /x HTTP/1.1\r\nrest".data =
      .ok (("GET".data, "/x".data, "HTTP/1.1".data), "rest".data) := by
  have hlen : (readLineB (List.replicate 4097 'a')).1.length > 4096 := by
    rw [readLineB_replicate 4097]
    simp only [List.length_replicate]
    omega
  exact ⟨hlen, C5_request_line_length_bounds.1 _ hlen,
    C5_request_line_length_bounds.2 "GET /x HTTP/1.1\r\nrest".data
      "GET".data "/x".data "HTTP/1.1".data (by decide) (by decide)
      (by decide) (by decide) (Or.inr (by decide))⟩

/-- C7: during the header phase a line lacking the separator ": " is
skipped without failing the parse and without being stored, yet counts
toward the 100-line count limit and the 65536-byte cumulative size
limit; a line containing ": " is split at its first occurrence into name
and value and stored with dict-assignment semantics, so a duplicate name
overwrites the earlier value (last occurrence wins). -/
theorem C7_header_lines :
    (∀ (ts : List Bool) (l : Bytes) (rest : List Bytes)
        (total cnt : Nat) (hs : List (Bytes × Bytes)),
      total + l.length ≤ MAX_TOTAL_HEADERS →
      pyStrip l ≠ [] →
      (pyStrip l).length ≤ MAX_HEADER_SIZE →
      cnt + 1 ≤ MAX_HEADERS →
      splitOnSub ": ".data (pyStrip l) = none →
      headerPhase (false :: ts) (l :: rest) total cnt hs =
        headerPhase ts rest (total + l.length) (cnt + 1) hs) ∧
    (∀ (ts : List Bool) (l : Bytes) (rest : List Bytes)
        (total cnt : Nat) (hs : List (Bytes × Bytes)) (k v : Bytes),
      total + l.length ≤ MAX_TOTAL_HEADERS →
      pyStrip l ≠ [] →
      (pyStrip l).length ≤ MAX_HEADER_SIZE →
      cnt + 1 ≤ MAX_HEADERS →
      splitOnSub ": ".data (pyStrip l) = some (k, v) →
      headerPhase (false :: ts) (l :: rest) total cnt hs =
        headerPhase ts rest (total + l.length) (cnt + 1) (setKey hs k v)) ∧
    (∀ (s k v : Bytes),
      splitOnSub ": ".data s = some (k, v) → s = k ++ ": ".data ++ v) ∧
    (∀ (hs : List (Bytes × Bytes)) (k v1 v2 : Bytes),
      getVal (setKey (setKey hs k v1) k v2) k = some v2) := by
  refine ⟨?_, ?_, fun s k v h => splitOnSub_decomp _ _ _ _ h,
    fun hs k v1 v2 => getVal_setKey_same _ _ _⟩
  · intro ts l rest total cnt hs h1 h2 h3 h4 h5
    have h1' : ¬ (total + l.length > MAX_TOTAL_HEADERS) := by omega
    have h3' : ¬ ((pyStrip l).length > MAX_HEADER_SIZE) := by omega
    have h4' : ¬ (cnt + 1 > MAX_HEADERS) := by omega
    simp [headerPhase, headTO, tailTO, h1', h2, h3', h4', h5]
  · intro ts l rest total cnt hs k v h1 h2 h3 h4 h5
    have h1' : ¬ (total + l.length > MAX_TOTAL_HEADERS) := by omega
    have h3' : ¬ ((pyStrip l).length > MAX_HEADER_SIZE) := by omega
    have h4' : ¬ (cnt + 1 > MAX_HEADERS) := by omega
    simp [headerPhase, headTO, tailTO, h1', h2, h3', h4', h5]

theorem C7_header_lines_witness :
    headerPhase [false] ["BadHeader\r\n".data, "\r\n".data] 0 0 [] =
      headerPhase [] ["\r\n".data] (0 + "BadHeader\r\n".data.length) (0 + 1)
        [] ∧
    headerPhase [false] ["Host: a\r\n".data, "\r\n".data] 0 0 [] =
      headerPhase [] ["\r\n".data] (0 + "Host: a\r\n".data.length) (0 + 1)
        (setKey [] "Host".data "a".data) ∧
    getVal (setKey (setKey [] "K".data "1".data) "K".data "2".data)
      "K".data = some "2".data :=
  ⟨C7_header_lines.1 [] "BadHeader\r\n".data ["\r\n".data] 0 0 []
      (by decide) (by decide) (by decide) (by decide) (by decide),
    C7_header_lines.2.1 [] "Host: a\r\n".data ["\r\n".data] 0 0 []
      "Host".data "a".data
      (by decide) (by decide) (by decide) (by decide) (by decide),
    C7_header_lines.2.2.2 [] "K".data "1".data "2".data⟩

/-- C4: whenever a `Content-Length` header is present whose value parses
as a non-negative integer L within the body-size limit, a successful
parse returns a body of exactly L bytes; a stream that closes before L
bytes arrive makes the body phase fail with the "disconnected before
full body" condition, never a short body; and without a
`Content-Length` header the body is empty and no body bytes are read
(the stream is returned untouched). -/
theorem C4_content_length_body :
    (∀ (touts : List Bool) (data : Bytes) (req : HTTPRequest)
        (v : Bytes) (L : Int),
      parseRequestProduction touts data = .ok req →
      getVal req.headers "Content-Length".data = some v →
      pyInt v = some L →
      0 ≤ L ∧ req.body.length = L.toNat) ∧
    (∀ (touts : List Bool) (data : Bytes) (req : HTTPRequest),
      parseRequestProduction touts data = .ok req →
      getVal req.headers "Content-Length".data = none →
      req.body = []) ∧
    (∀ (headers : List (Bytes × Bytes)) (data v : Bytes) (L : Int),
      getVal headers "Content-Length".data = some v →
      pyInt v = some L → 0 ≤ L → L ≤ (MAX_BODY_SIZE : Int) →
      data.length < L.toNat →
      bodyPhase false headers data =
        .error (.valueError
          "Client disconnected before sending full body".data)) ∧
    (∀ (tout : Bool) (headers : List (Bytes × Bytes)) (data : Bytes),
      getVal headers "Content-Length".data = none →
      bodyPhase tout headers data = .ok ([], data)) := by
  refine ⟨?_, ?_, ?_, ?_⟩
  · intro touts data req v L hok hcv hpi
    obtain ⟨t, rest1, hs, restL, touts2, b, rest2, h1, h2, h3, hreq⟩ :=
      parseRequestProduction_ok touts data req hok
    subst hreq
    dsimp only at hcv ⊢
    rcases bodyPhase_ok _ _ _ _ _ h3 with ⟨hnone, _, _⟩ | ⟨v', L', hv', hpi', hL', hlen'⟩
    · rw [hnone] at hcv
      simp at hcv
    · rw [hcv] at hv'
      injection hv' with hv'
      subst hv'
      rw [hpi] at hpi'
      injection hpi' with hLL
      rw [← hLL] at hL' hlen'
      exact ⟨hL', hlen'⟩
  · intro touts data req hok hcv
    obtain ⟨t, rest1, hs, restL, touts2, b, rest2, h1, h2, h3, hreq⟩ :=
      parseRequestProduction_ok touts data req hok
    subst hreq
    dsimp only at hcv ⊢
    rcases bodyPhase_ok _ _ _ _ _ h3 with ⟨_, hb, _⟩ | ⟨v', L', hv', _, _, _⟩
    · exact hb
    · rw [hcv] at hv'
      simp at hv'
  · intro headers data v L hcv hpi h0 hmax hshort
    have h1' : ¬ (L > (MAX_BODY_SIZE : Int)) := by omega
    have h2' : ¬ (L < 0) := by omega
    have hre : readExactly L.toNat data = none := by
      simp [readExactly]
      omega
    simp [bodyPhase, hcv, hpi, h1', h2', hre]
  · intro tout headers data hcv
    simp [bodyPhase, hcv]

theorem C4_content_length_body_witness :
    (0 ≤ (3 : Int) ∧
      (HTTPRequest.mk "POST".data "/s".data "HTTP/1.1".data
        [("Content-Length".data, "3".data)] "abc".data).body.length =
        (3 : Int).toNat) ∧
    bodyPhase false [("Content-Length".data, "5".data)] "ab".data =
      .error (.valueError
        "Client disconnected before sending full body".data) ∧
    bodyPhase false [] "xyz".data = .ok ([], "xyz".data) :=
  ⟨C4_content_length_body.1 []
      "POST /s HTTP/1.1\r\nContent-Length: 3\r\n\r\nabc".data
      (HTTPRequest.mk "POST".data "/s".data "HTTP/1.1".data
        [("Content-Length".data, "3".data)] "abc".data)
      "3".data 3 (by decide) (by decide) (by decide),
    C4_content_length_body.2.2.1 [("Content-Length".data, "5".data)]
      "ab".data "5".data 5 (by decide) (by decide) (by decide) (by decide)
      (by decide),
    C4_content_length_body.2.2.2 false [] "xyz".data (by decide)⟩
